import Mathlib

/-!
Shallow embedding of the five Playwright automation scripts of the
web-stroker repository.  Each Python script is a straight-line sequence of
browser-automation calls with a few data-dependent branches (whether a
canvas bounding box was obtained, how many buttons a locator matched, what
the page content is).  We model each script as a function from an
environment record, holding exactly the values the page supplies at those
branch points, to the trace of actions the script performs, in order.
A mouse coordinate is a rational number (Playwright bounding boxes are
floats; every coordinate in these scripts is a box field plus an integer
literal, so rationals model them exactly).  Durations are in milliseconds:
Python `time.sleep(0.5)` becomes `sleep 500`, `page.wait_for_timeout(500)`
becomes `waitTimeout 500`.
-/

namespace WebStroker

/-- A bounding box as returned by `locator.bounding_box()`. -/
structure Box where
  x : ℚ
  y : ℚ
  width : ℚ
  height : ℚ
deriving DecidableEq

/-- Mouse buttons used by the scripts. -/
inductive MouseButton where
  | left
  | right
deriving DecidableEq

/-- One observable browser-automation action, mirroring the Playwright sync
API calls the scripts make. `elementClick sel` is `page.locator(sel).click()`,
`pageClick sel` is `page.click(sel)`, `clickHasText sel t` is a click on
`page.locator(sel, has_text=t)`, and `raiseTypeError` marks the point where a
Python call raises a TypeError, ending the run. -/
inductive Action where
  | launch (headless : Bool)
  | newPage
  | setViewport (w h : Nat)
  | goto (url : String)
  | waitLoadState (state : String)
  | waitTimeout (ms : Nat)
  | sleep (ms : Nat)
  | screenshot (path : String) (fullPage : Bool)
  | print (msg : String)
  | locate (selector : String)
  | locateHasText (selector text : String)
  | elementClick (selector : String)
  | clickHasText (selector text : String)
  | pageClick (selector : String)
  | mouseMove (x y : ℚ) (steps : Nat)
  | mouseDown
  | mouseUp
  | mouseClick (x y : ℚ) (button : MouseButton)
  | evaluate (js : String)
  | raiseTypeError (msg : String)
  | close
deriving DecidableEq

/-- Python's `pat in s` substring test, on character lists: `pat` occurs as a
contiguous run of the second list. -/
def containsSub (pat : List Char) : List Char → Bool
  | [] => pat.isEmpty
  | c :: rest => pat.isPrefixOf (c :: rest) || containsSub pat rest

/-- Concatenation of a list of trace segments.  The scripts are sequences of
statement blocks, some of which are conditional on page data; `seq` glues the
blocks right-nested, so traces evaluate lazily front to back. -/
def seq : List (List Action) → List Action
  | [] => []
  | l :: ls => l ++ seq ls

/-- The ASCII single-quote character, used inside printed messages. -/
def quoteCh : String := String.singleton (Char.ofNat 39)

/-- Render a bounding box the way Python prints the dict returned by
`bounding_box()` (field punctuation elided; no claim depends on it). -/
def boxStr (b : Box) : String :=
  "x: " ++ toString b.x ++ ", y: " ++ toString b.y ++
  ", width: " ++ toString b.width ++ ", height: " ++ toString b.height

namespace InspectPage

/-- Environment for `inspect_page.py`: the page content and, for each button
on the page, either `some (text, ariaLabel)` (the rendered values; Python
prints `None` as the string `None`) or `none` when reading it raised and the
bare `except:` branch runs. -/
structure Env where
  content : String
  buttons : List (Option (String × String))

/-- The body of the `for i, btn in enumerate(buttons[:20])` loop: one print
per button, from `inspect_page.py` lines 20-26. -/
def buttonLine (i : Nat) (b : Option (String × String)) : Action :=
  match b with
  | some (t, a) =>
      Action.print ("Button " ++ toString i ++ ": text=" ++ quoteCh ++ t ++ quoteCh ++
        " aria-label=" ++ quoteCh ++ a ++ quoteCh)
  | none => Action.print ("Button " ++ toString i ++ ": (error reading)")

/-- Trace of `inspect_page.py` (module body, lines 7-28). -/
def main (e : Env) : List Action :=
  [Action.launch true, Action.newPage, Action.setViewport 1400 900,
   Action.goto "http://localhost:5173", Action.waitLoadState "networkidle",
   Action.print "=== Page Structure ===",
   Action.print (String.mk (e.content.data.take 2000)),
   Action.print "\n=== Buttons on page ===",
   Action.locate "button"]
  ++ ((e.buttons.take 20).enum.map (fun p => buttonLine p.1 p.2))
  ++ [Action.close]

end InspectPage

namespace QaTestAngle

/-- Environment for `qa_test_angle.py`: the six `bounding_box()` results (one
per drawing/clicking step), the counts of the Measure and Angle button
locators, and the console-log string the final `page.evaluate` returns. -/
structure Env where
  box1 : Option Box
  box2 : Option Box
  box3 : Option Box
  box4 : Option Box
  box5 : Option Box
  box6 : Option Box
  measureCount : Nat
  angleCount : Nat
  logs : String

/-- Trace of `qa_test_angle.py` (module body, lines 4-144).  The
`if digital_button:` / `if line_button:` / `if canvas:` tests are on locator
objects, which are always truthy in Python, so those branches always run. -/
def main (e : Env) : List Action :=
  seq
    [[Action.launch true, Action.newPage,
      Action.goto "http://localhost:5176", Action.waitLoadState "networkidle",
      Action.screenshot "/tmp/angle_test_1_initial.png" false,
      Action.print "Step 1: Clicking on Digital mode button...",
      Action.locate "button:has-text(\"Digital\")",
      Action.elementClick "button:has-text(\"Digital\")", Action.waitTimeout 500,
      Action.print "Step 2: Selecting Line tool...",
      Action.locate "button:has-text(\"Line\")",
      Action.elementClick "button:has-text(\"Line\")", Action.waitTimeout 300,
      Action.print "Step 3: Drawing first line...",
      Action.locate "canvas"],
     (match e.box1 with
      | none => []
      | some b =>
        [Action.mouseMove (b.x + 100) (b.y + 200) 1, Action.mouseDown,
         Action.mouseMove (b.x + 300) (b.y + 200) 1, Action.mouseUp,
         Action.waitTimeout 300,
         Action.mouseClick (b.x + 100) (b.y + 200) MouseButton.right,
         Action.waitTimeout 500]),
     [Action.screenshot "/tmp/angle_test_2_first_line.png" false,
      Action.print "Step 4: Drawing second line..."],
     (match e.box2 with
      | none => []
      | some b =>
        [Action.mouseMove (b.x + 200) (b.y + 100) 1, Action.mouseDown,
         Action.mouseMove (b.x + 200) (b.y + 300) 1, Action.mouseUp,
         Action.waitTimeout 300,
         Action.mouseClick (b.x + 200) (b.y + 100) MouseButton.right,
         Action.waitTimeout 500]),
     [Action.screenshot "/tmp/angle_test_3_second_line.png" false,
      Action.print "Step 5: Switching to Angle measurement tool...",
      Action.locate "button:has-text(\"Measure\")"],
     (match e.measureCount with
      | 0 => []
      | _ + 1 =>
        [Action.elementClick "button:has-text(\"Measure\")", Action.waitTimeout 300]),
     [Action.locate "button:has-text(\"Angle\")"],
     (match e.angleCount with
      | 0 => []
      | _ + 1 =>
        [Action.elementClick "button:has-text(\"Angle\")", Action.waitTimeout 500]),
     [Action.screenshot "/tmp/angle_test_4_angle_tool.png" false,
      Action.print "Step 6: Clicking on first line to select it..."],
     (match e.box3 with
      | none => []
      | some b =>
        [Action.mouseClick (b.x + 200) (b.y + 200) MouseButton.left,
         Action.waitTimeout 500]),
     [Action.screenshot "/tmp/angle_test_5_first_selected.png" false,
      Action.print "Step 7: Clicking on second line to complete angle measurement..."],
     (match e.box4 with
      | none => []
      | some b =>
        [Action.mouseClick (b.x + 200) (b.y + 200) MouseButton.left,
         Action.waitTimeout 500]),
     [Action.screenshot "/tmp/angle_test_6_angle_measured.png" false,
      Action.print "Step 8: Right-clicking to cancel measurement..."],
     (match e.box5 with
      | none => []
      | some b =>
        [Action.mouseClick (b.x + 250) (b.y + 250) MouseButton.right,
         Action.waitTimeout 500]),
     [Action.screenshot "/tmp/angle_test_7_after_rightclick.png" false,
      Action.print "Step 9: Testing chaining - selecting first line again..."],
     (match e.box6 with
      | none => []
      | some b =>
        [Action.mouseClick (b.x + 200) (b.y + 200) MouseButton.left,
         Action.waitTimeout 500]),
     [Action.screenshot "/tmp/angle_test_8_chaining.png" false,
      Action.print "Step 10: Checking console logs...",
      Action.evaluate "() => window.__consoleLogs || []",
      Action.print ("Console logs: " ++ e.logs),
      Action.print "\nQA Testing Complete!",
      Action.print "Screenshots saved to /tmp/"]]
  ++ [Action.close]

end QaTestAngle

namespace TestAngleMeasurement

/-- Environment for `test_angle_measurement.py`: the canvas bounding box (or
`none`), the count of the `page.locator("button", has_text="angle")` locator,
and the page content read at the end. -/
structure Env where
  canvasBox : Option Box
  angleCount : Nat
  content : String

/-- The decision on line 108 of `test_angle_measurement.py`:
`"angle:" in content.lower() or "°" in content` (Python substring tests;
lowering maps `Char.toLower` over the characters, as `String.toLower` does). -/
def angleDisplayedCheck (content : String) : Bool :=
  containsSub "angle:".data (content.data.map Char.toLower) ||
    containsSub "°".data content.data

/-- Trace and returned success flag of the `test_angle_measurement` function
(`test_angle_measurement.py` lines 15-114). -/
def test_angle_measurement (e : Env) : List Action × Bool :=
  ([Action.launch false, Action.newPage,
    Action.goto "http://localhost:5173", Action.waitLoadState "networkidle",
    Action.print "✓ Page loaded",
    Action.locate "canvas"]
   ++ (match e.canvasBox with
       | none => [Action.print "✗ Canvas not found"]
       | some b =>
         [Action.print ("✓ Canvas found at " ++ boxStr b),
          Action.elementClick "button:has-text(\"digital\")", Action.sleep 500,
          Action.elementClick "button:has-text(\"line\")", Action.sleep 300,
          Action.mouseClick (b.x + b.width / 2 - 100) (b.y + b.height / 2) MouseButton.left,
          Action.sleep 200,
          Action.mouseClick (b.x + b.width / 2 + 100) (b.y + b.height / 2) MouseButton.left,
          Action.sleep 200,
          Action.mouseClick (b.x + b.width / 2 - 100) (b.y + b.height / 2) MouseButton.left,
          Action.sleep 300,
          Action.mouseClick (b.x + b.width / 2) (b.y + b.height / 2 - 100) MouseButton.left,
          Action.sleep 200,
          Action.mouseClick (b.x + b.width / 2) (b.y + b.height / 2 + 100) MouseButton.left,
          Action.sleep 200,
          Action.mouseClick (b.x + b.width / 2) (b.y + b.height / 2 - 100) MouseButton.left,
          Action.sleep 300,
          Action.print "✓ Lines drawn",
          Action.elementClick "button:has-text(\"measure\")", Action.sleep 300,
          Action.locateHasText "button" "angle"]
         ++ (match e.angleCount with
             | 0 => [Action.print "✗ Angle tool button not found"]
             | _ + 1 =>
               [Action.clickHasText "button" "angle", Action.sleep 300,
                Action.print "✓ Angle tool selected",
                Action.screenshot "/tmp/before_angle.png" false,
                Action.mouseClick (b.x + b.width / 2 - 50) (b.y + b.height / 2) MouseButton.left,
                Action.sleep 500,
                Action.screenshot "/tmp/after_first_click.png" false,
                Action.mouseClick (b.x + b.width / 2) (b.y + b.height / 2 - 50) MouseButton.left,
                Action.sleep 500,
                Action.screenshot "/tmp/after_second_click.png" false,
                Action.print "✓ Screenshots taken: before_angle, after_first_click, after_second_click",
                Action.waitTimeout 500,
                Action.print
                  (if angleDisplayedCheck e.content then
                     "✓ Angle measurement appears to be displayed"
                   else
                     "⚠ Angle measurement text not clearly visible in content")]))
   ++ [Action.close],
   (match e.canvasBox with
    | none => false
    | some _ =>
      (match e.angleCount with
       | 0 => false
       | _ + 1 => true)))

end TestAngleMeasurement

namespace TestAngleQa

/-- Environment for `test_angle_qa.py`: the one `bounding_box()` result read by
`find_canvas_center`. -/
structure Env where
  canvasBox : Option Box

/-- The `take_screenshot(page, name)` helper (`test_angle_qa.py` lines 15-19):
a full-page screenshot followed by a print of the path. -/
def take_screenshot (name : String) : List Action :=
  [Action.screenshot ("/tmp/angle_test_" ++ name ++ ".png") true,
   Action.print ("Screenshot saved: /tmp/angle_test_" ++ name ++ ".png")]

/-- The `draw_line(page, x1, y1, x2, y2, canvas_info)` helper
(`test_angle_qa.py` lines 35-49). -/
def draw_line (x1 y1 x2 y2 : ℚ) : List Action :=
  [Action.mouseMove x1 y1 1, Action.mouseDown, Action.sleep 100,
   Action.mouseMove x2 y2 10, Action.sleep 200,
   Action.mouseUp, Action.sleep 300]

/-- Trace of the `test_angle_measurement` function of `test_angle_qa.py`
(lines 52-150).  On the path where a canvas box exists, the run ends at
line 123, `page.mouse.click()`: the Playwright sync API requires the `x` and
`y` arguments of `Mouse.click`, so this call raises a TypeError and nothing
after it (the angle-label check of lines 127-140, Test 3, and
`browser.close()`) executes. -/
def test_angle_measurement (e : Env) : List Action :=
  [Action.launch false, Action.newPage, Action.setViewport 1400 900,
   Action.goto "http://localhost:5173", Action.waitLoadState "networkidle",
   Action.print "\n=== Test 1: Intersecting Segments - Arc follows mouse ===",
   Action.locate "canvas"]
  ++ (match e.canvasBox with
      | none => [Action.print "ERROR: Could not find canvas", Action.close]
      | some b =>
        seq
          [[Action.print "Switching to measure tool...",
            Action.pageClick "button:has-text(\"Measure\")", Action.sleep 300,
            Action.print "Selecting angle measurement...",
            Action.pageClick "button[aria-label*=\"angle\" i]", Action.sleep 300,
            Action.print "Drawing first line (vertical-ish)..."],
           draw_line (b.x + b.width / 2 - 100) (b.y + b.height / 2 - 150)
             (b.x + b.width / 2 - 100) (b.y + b.height / 2 + 150),
           take_screenshot "01_first_line",
           [Action.print "Drawing second line (crossing first)..."],
           draw_line (b.x + b.width / 2 - 200) (b.y + b.height / 2)
             (b.x + b.width / 2 + 200) (b.y + b.height / 2),
           take_screenshot "02_two_lines",
           [Action.print "\nTesting arc appears on mouse side...",
            Action.print "Moving mouse to LEFT side of intersection...",
            Action.mouseMove (b.x + b.width / 2 - 150) (b.y + b.height / 2) 1,
            Action.sleep 500],
           take_screenshot "03_arc_on_left",
           [Action.print "Moving mouse to RIGHT side of intersection...",
            Action.mouseMove (b.x + b.width / 2 + 150) (b.y + b.height / 2) 1,
            Action.sleep 500],
           take_screenshot "04_arc_on_right",
           [Action.print "Moving mouse ABOVE intersection...",
            Action.mouseMove (b.x + b.width / 2 - 100) (b.y + b.height / 2 - 100) 1,
            Action.sleep 500],
           take_screenshot "05_arc_above",
           [Action.print "Moving mouse BELOW intersection...",
            Action.mouseMove (b.x + b.width / 2 - 100) (b.y + b.height / 2 + 100) 1,
            Action.sleep 500],
           take_screenshot "06_arc_below",
           [Action.print "\n=== Test 2: Arc selection by clicking ===",
            Action.print "Clicking on left side to select second line...",
            Action.mouseMove (b.x + b.width / 2 - 150) (b.y + b.height / 2) 1,
            Action.sleep 300,
            Action.raiseTypeError "Mouse.click() missing 2 required positional arguments: x and y"]])

/-- The acute-angle report of `test_angle_qa.py` lines 134-138, as a function
of the parsed angle value (modelled as a rational; Python parses the decimal
label with `float`). -/
def acuteReport (v : ℚ) : String :=
  if v ≤ 90 then "✓ Acute angle: " ++ toString v ++ "°"
  else "✗ NOT acute: " ++ toString v ++ "° (should be ≤ 90°)"

end TestAngleQa

namespace TestAngleSimple

/-- Environment for `test_angle_simple.py`: the two button counts printed, the
number of Angle buttons, and the canvas bounding box. -/
structure Env where
  buttons1 : Nat
  buttons2 : Nat
  angleCount : Nat
  canvasBox : Option Box

/-- Trace of the `test_angle` function (`test_angle_simple.py` lines 10-93).
`if measure_btn:` on line 28 tests a locator object, which is always truthy,
so that branch always runs; `if angle_buttons:` on line 42 tests a Python
list, so it runs exactly when the Angle locator matched at least one button. -/
def test_angle (e : Env) : List Action :=
  seq
    [[Action.launch false, Action.newPage, Action.setViewport 1400 900,
      Action.goto "http://localhost:5173", Action.waitLoadState "networkidle",
      Action.print "Page loaded", Action.sleep 1000,
      Action.locate "button",
      Action.print ("Found " ++ toString e.buttons1 ++ " buttons"),
      Action.locate "button:has-text(\"Measure\")",
      Action.print "Found Measure button",
      Action.elementClick "button:has-text(\"Measure\")", Action.sleep 500,
      Action.sleep 500,
      Action.locate "button",
      Action.print ("After clicking Measure: " ++ toString e.buttons2 ++ " buttons"),
      Action.locate "button:has-text(\"Angle\")",
      Action.print ("Found " ++ toString e.angleCount ++ " angle buttons")],
     (match e.angleCount with
      | 0 => []
      | _ + 1 =>
        [Action.elementClick "button:has-text(\"Angle\")",
         Action.print "Clicked angle button", Action.sleep 500]),
     [Action.screenshot "/tmp/after_angle_select.png" false,
      Action.print "Screenshot saved",
      Action.locate "canvas"],
     (match e.canvasBox with
      | none => []
      | some b =>
        [Action.print ("Canvas center: (" ++ toString (b.x + b.width / 2) ++ ", " ++
           toString (b.y + b.height / 2) ++ ")"),
         Action.print "Drawing first line...",
         Action.mouseMove (b.x + b.width / 2 - 100) (b.y + b.height / 2 - 150) 1,
         Action.mouseDown,
         Action.mouseMove (b.x + b.width / 2 - 100) (b.y + b.height / 2 + 150) 10,
         Action.mouseUp, Action.sleep 500,
         Action.screenshot "/tmp/first_line.png" false,
         Action.print "Drawing second line...",
         Action.mouseMove (b.x + b.width / 2 - 200) (b.y + b.height / 2) 1,
         Action.mouseDown,
         Action.mouseMove (b.x + b.width / 2 + 200) (b.y + b.height / 2) 10,
         Action.mouseUp, Action.sleep 500,
         Action.screenshot "/tmp/second_line.png" false,
         Action.print "Testing arc movement...",
         Action.mouseMove (b.x + b.width / 2 - 150) (b.y + b.height / 2) 1,
         Action.sleep 300,
         Action.screenshot "/tmp/arc_left.png" false,
         Action.mouseMove (b.x + b.width / 2 + 150) (b.y + b.height / 2) 1,
         Action.sleep 300,
         Action.screenshot "/tmp/arc_right.png" false]),
     [Action.print "Test complete!", Action.sleep 2000]]
  ++ [Action.close]

end TestAngleSimple

/-! Predicates over actions and traces, used to state the claims. -/

/-- Is this a browser-launch action? -/
def isLaunch : Action → Bool
  | .launch _ => true
  | _ => false

/-- Is this a UI-element location action (a locator creation, or a click that
locates its target by selector)? -/
def isLocator : Action → Bool
  | .locate _ => true
  | .locateHasText _ _ => true
  | .elementClick _ => true
  | .clickHasText _ _ => true
  | .pageClick _ => true
  | _ => false

/-- Is this a simulated mouse pointer event (move, down, up, or click)? -/
def isMouseEvent : Action → Bool
  | .mouseMove _ _ _ => true
  | .mouseDown => true
  | .mouseUp => true
  | .mouseClick _ _ _ => true
  | _ => false

/-- Is this a screenshot capture? -/
def isScreenshot : Action → Bool
  | .screenshot _ _ => true
  | _ => false

/-- Is this a print to standard output? -/
def isPrint : Action → Bool
  | .print _ => true
  | _ => false

/-- Is this a navigation? -/
def isGoto : Action → Bool
  | .goto _ => true
  | _ => false

/-- Is this `browser.close()`? -/
def isClose : Action → Bool
  | .close => true
  | _ => false

/-- Does the trace start with a browser launch? -/
def headLaunch (t : List Action) : Bool :=
  match t.head? with
  | some a => isLaunch a
  | none => false

/-- Does the trace end with `browser.close()`? -/
def lastClose (t : List Action) : Bool :=
  match t.getLast? with
  | some a => isClose a
  | none => false

/-- Steps (1), (2), (3) and the print half of step (5) of the spec's shape:
launch first, navigate to the given URL, locate UI elements, print diagnostic
text. -/
def openNavLocPrint (url : String) (t : List Action) : Bool :=
  headLaunch t && t.any (· == Action.goto url) && t.any isLocator && t.any isPrint

/-- The full six-step shape of the spec: launch, navigate to the given URL,
locate UI elements, simulate mouse pointer events, capture a screenshot and
print diagnostic text, and end with `browser.close()`. -/
def sixStepShape (url : String) (t : List Action) : Bool :=
  openNavLocPrint url t && t.any isMouseEvent && t.any isScreenshot && lastClose t

/-- The durations, in milliseconds, of every fixed wait literal appearing in
the five scripts: `time.sleep(0.1/0.2/0.3/0.5/1/2)` and
`wait_for_timeout(300/500)`. -/
def fixedDurations : List Nat := [100, 200, 300, 500, 1000, 2000]

/-- Every waiting action is a fixed-duration sleep or timeout with one of the
literal durations of the scripts, or a `networkidle` load-state wait;
non-waiting actions pass vacuously. -/
def waitOk : Action → Bool
  | .sleep ms => fixedDurations.contains ms
  | .waitTimeout ms => fixedDurations.contains ms
  | .waitLoadState s => s == "networkidle"
  | _ => true

/-- The recognizable button texts the spec names, in the two capitalizations
the scripts use. -/
def recognizedTexts : List String :=
  ["Digital", "Line", "Measure", "Angle", "digital", "line", "measure", "angle"]

/-- The button selectors that filter by a recognized text or by an aria-label
containing `angle`. -/
def filteredButtonSelectors : List String :=
  "button[aria-label*=\"angle\" i]" ::
    recognizedTexts.map (fun t => "button:has-text(\"" ++ t ++ "\")")

/-- Every action that locates a button either uses a selector filtering by a
recognized text or an angle aria-label, or is the bare `button` locator that
enumerates all buttons; actions not addressing buttons pass vacuously. -/
def buttonLocatorOk : Action → Bool
  | .locate sel =>
      !("button".data.isPrefixOf sel.data) || sel == "button" ||
        filteredButtonSelectors.contains sel
  | .elementClick sel =>
      !("button".data.isPrefixOf sel.data) || filteredButtonSelectors.contains sel
  | .pageClick sel =>
      !("button".data.isPrefixOf sel.data) || filteredButtonSelectors.contains sel
  | .locateHasText sel t => sel == "button" && recognizedTexts.contains t
  | .clickHasText sel t => sel == "button" && recognizedTexts.contains t
  | _ => true

/-- Every navigation in the trace goes to the given URL; other actions pass
vacuously. -/
def gotoOnly (url : String) : Action → Bool
  | .goto u => u == url
  | _ => true

/-- The last two actions of a trace. -/
def lastTwo (t : List Action) : List Action := t.drop (t.length - 2)

/-- The messages printed by a trace, in order. -/
def printedMsgs (t : List Action) : List String :=
  t.filterMap fun a =>
    match a with
    | .print s => some s
    | _ => none

/-- Is this a `page.mouse.click` with coordinates (the way the scripts click
on a drawn line)? -/
def isMouseClick : Action → Bool
  | .mouseClick _ _ _ => true
  | _ => false

/-- Coordinates carried by a mouse event, if any. -/
def mouseCoord : Action → Option (ℚ × ℚ)
  | .mouseMove x y _ => some (x, y)
  | .mouseClick x y _ => some (x, y)
  | _ => none

/-- The integer offsets that appear literally in the scripts' coordinate
arithmetic. -/
def literalOffsets : List ℚ := [-200, -150, -100, -50, 0, 100, 150, 200, 250, 300]

/-- One coordinate axis is derived from a bounding box: it is the box origin
plus a literal offset, or the box center (origin plus half the extent) plus a
literal offset. -/
def axisDerived (origin extent c : ℚ) : Prop :=
  ∃ d ∈ literalOffsets, c = origin + d ∨ c = origin + extent / 2 + d

/-- Every coordinate the action passes to the mouse is derived from the box
`b`; actions passing no coordinates hold vacuously. -/
def boxDerived (b : Box) (a : Action) : Prop :=
  ∀ x y, mouseCoord a = some (x, y) → axisDerived b.x b.width x ∧ axisDerived b.y b.height y

/-- Every coordinate the action passes to the mouse is derived from one of
the bounding boxes in `bs` (the boxes a run of the script obtained); actions
passing no coordinates hold vacuously. -/
def boxDerivedFromAny (bs : List (Option Box)) (a : Action) : Prop :=
  ∀ x y, mouseCoord a = some (x, y) →
    ∃ b, some b ∈ bs ∧ axisDerived b.x b.width x ∧ axisDerived b.y b.height y

/-! Helper lemmas for scanning the data-dependent parts of the traces. -/

lemma any_map_false {α β : Type} (f : α → β) (p : β → Bool)
    (h : ∀ a, p (f a) = false) : ∀ l : List α, (l.map f).any p = false := by
  intro l
  induction l with
  | nil => rfl
  | cons a l ih => simp [List.any, h, ih]

lemma all_map_true {α β : Type} (f : α → β) (p : β → Bool)
    (h : ∀ a, p (f a) = true) : ∀ l : List α, (l.map f).all p = true := by
  intro l
  induction l with
  | nil => rfl
  | cons a l ih => simp [List.all, h, ih]

lemma countP_map_zero {α β : Type} (f : α → β) (p : β → Bool)
    (h : ∀ a, p (f a) = false) : ∀ l : List α, (l.map f).countP p = 0 := by
  intro l
  induction l with
  | nil => rfl
  | cons a l ih => simp [List.countP_cons, h, ih]

lemma countP_map_length {α β : Type} (f : α → β) (p : β → Bool)
    (h : ∀ a, p (f a) = true) : ∀ l : List α, (l.map f).countP p = l.length := by
  intro l
  induction l with
  | nil => rfl
  | cons a l ih => simp [List.countP_cons, h, ih]

lemma lastClose_snoc (A : List Action) : lastClose (A ++ [Action.close]) = true := by
  simp [lastClose, List.getLast?_concat, isClose]

lemma buttonLine_not_mouse (p : Nat × Option (String × String)) :
    isMouseEvent (InspectPage.buttonLine p.1 p.2) = false := by
  rcases p with ⟨i, _ | ta⟩ <;> rfl

lemma buttonLine_not_shot (p : Nat × Option (String × String)) :
    isScreenshot (InspectPage.buttonLine p.1 p.2) = false := by
  rcases p with ⟨i, _ | ta⟩ <;> rfl

lemma buttonLine_not_goto (p : Nat × Option (String × String)) :
    isGoto (InspectPage.buttonLine p.1 p.2) = false := by
  rcases p with ⟨i, _ | ta⟩ <;> rfl

lemma buttonLine_not_launch (p : Nat × Option (String × String)) :
    isLaunch (InspectPage.buttonLine p.1 p.2) = false := by
  rcases p with ⟨i, _ | ta⟩ <;> rfl

lemma buttonLine_isPrint (p : Nat × Option (String × String)) :
    isPrint (InspectPage.buttonLine p.1 p.2) = true := by
  rcases p with ⟨i, _ | ta⟩ <;> rfl

lemma buttonLine_waitOk (p : Nat × Option (String × String)) :
    waitOk (InspectPage.buttonLine p.1 p.2) = true := by
  rcases p with ⟨i, _ | ta⟩ <;> rfl

lemma buttonLine_gotoOnly (url : String) (p : Nat × Option (String × String)) :
    gotoOnly url (InspectPage.buttonLine p.1 p.2) = true := by
  rcases p with ⟨i, _ | ta⟩ <;> rfl

lemma buttonLine_locatorOk (p : Nat × Option (String × String)) :
    buttonLocatorOk (InspectPage.buttonLine p.1 p.2) = true := by
  rcases p with ⟨i, _ | ta⟩ <;> rfl

lemma axis_orig (o w d : ℚ) (hd : d ∈ literalOffsets) : axisDerived o w (o + d) :=
  ⟨d, hd, Or.inl rfl⟩

lemma axis_cent (o w d : ℚ) (hd : d ∈ literalOffsets) : axisDerived o w (o + w / 2 + d) :=
  ⟨d, hd, Or.inr rfl⟩

lemma axis_cent_sub (o w d : ℚ) (hd : -d ∈ literalOffsets) :
    axisDerived o w (o + w / 2 - d) :=
  ⟨-d, hd, Or.inr (by ring)⟩

lemma axis_cent_zero (o w : ℚ) : axisDerived o w (o + w / 2) :=
  ⟨0, by decide, Or.inr (by ring)⟩

lemma boxDerived_of_none {b : Box} {a : Action} (h : mouseCoord a = none) :
    boxDerived b a :=
  fun _ _ hxy => Option.noConfusion (h.symm.trans hxy)

lemma boxDerived_of_no_mouse {b : Box} {a : Action} {l : List Action}
    (ha : a ∈ l) (h : l.all (fun c => (mouseCoord c).isNone) = true) :
    boxDerived b a := by
  refine boxDerived_of_none ?_
  have := List.all_eq_true.mp h a ha
  exact Option.isNone_iff_eq_none.mp this

lemma boxDerived_move {b : Box} {x y : ℚ} (st : Nat)
    (hx : axisDerived b.x b.width x) (hy : axisDerived b.y b.height y) :
    boxDerived b (Action.mouseMove x y st) := by
  intro x' y' h
  obtain ⟨h1, h2⟩ := Prod.mk.injEq .. ▸ Option.some.inj h
  exact ⟨h1 ▸ hx, h2 ▸ hy⟩

lemma boxDerived_click {b : Box} {x y : ℚ} (bt : MouseButton)
    (hx : axisDerived b.x b.width x) (hy : axisDerived b.y b.height y) :
    boxDerived b (Action.mouseClick x y bt) := by
  intro x' y' h
  obtain ⟨h1, h2⟩ := Prod.mk.injEq .. ▸ Option.some.inj h
  exact ⟨h1 ▸ hx, h2 ▸ hy⟩

lemma fromAny_of_none {bs : List (Option Box)} {a : Action}
    (h : mouseCoord a = none) : boxDerivedFromAny bs a :=
  fun _ _ hxy => Option.noConfusion (h.symm.trans hxy)

lemma fromAny_of_no_mouse {bs : List (Option Box)} {a : Action} {l : List Action}
    (ha : a ∈ l) (h : l.all (fun c => (mouseCoord c).isNone) = true) :
    boxDerivedFromAny bs a := by
  refine fromAny_of_none ?_
  have := List.all_eq_true.mp h a ha
  exact Option.isNone_iff_eq_none.mp this

lemma fromAny_move {bs : List (Option Box)} {b : Box} {x y : ℚ} (st : Nat)
    (hb : some b ∈ bs)
    (hx : axisDerived b.x b.width x) (hy : axisDerived b.y b.height y) :
    boxDerivedFromAny bs (Action.mouseMove x y st) := by
  intro x' y' h
  obtain ⟨h1, h2⟩ := Prod.mk.injEq .. ▸ Option.some.inj h
  exact ⟨b, hb, h1 ▸ hx, h2 ▸ hy⟩

lemma fromAny_click {bs : List (Option Box)} {b : Box} {x y : ℚ} (bt : MouseButton)
    (hb : some b ∈ bs)
    (hx : axisDerived b.x b.width x) (hy : axisDerived b.y b.height y) :
    boxDerivedFromAny bs (Action.mouseClick x y bt) := by
  intro x' y' h
  obtain ⟨h1, h2⟩ := Prod.mk.injEq .. ▸ Option.some.inj h
  exact ⟨b, hb, h1 ▸ hx, h2 ▸ hy⟩

/-! ## Claim theorems -/

/-- C9: the `test_angle_measurement` function of `test_angle_measurement.py`
calls `browser.close()` exactly once on every execution path (the environment
supplies whatever the browser calls return, so all of them return), and the
close is the last action before the function returns, on the two early-failure
paths as much as on the success path. -/
theorem c9_close_exactly_once : ∀ (e : TestAngleMeasurement.Env),
    (TestAngleMeasurement.test_angle_measurement e).1.countP isClose = 1 ∧
    (TestAngleMeasurement.test_angle_measurement e).1.getLast? = some Action.close := by
  intro e
  rcases e with ⟨box, n, content⟩
  cases box with
  | none => exact ⟨rfl, rfl⟩
  | some b =>
    rcases n with _ | n
    · exact ⟨rfl, rfl⟩
    · exact ⟨rfl, rfl⟩

/-- C3: in every one of the five scripts, every waiting action of every run is
either a sleep or timeout with one of the scripts' literal constant durations,
or a `networkidle` load-state wait supplied by Playwright; the action type of
the embedding is the complete list of browser-automation calls the scripts
make, and contains no concurrency primitive. -/
theorem c3_waits_fixed :
    (∀ e : InspectPage.Env, (InspectPage.main e).all waitOk = true) ∧
    (∀ e : QaTestAngle.Env, (QaTestAngle.main e).all waitOk = true) ∧
    (∀ e : TestAngleMeasurement.Env,
      (TestAngleMeasurement.test_angle_measurement e).1.all waitOk = true) ∧
    (∀ e : TestAngleQa.Env, (TestAngleQa.test_angle_measurement e).all waitOk = true) ∧
    (∀ e : TestAngleSimple.Env, (TestAngleSimple.test_angle e).all waitOk = true) := by
  refine ⟨?_, ?_, ?_, ?_, ?_⟩
  · intro e
    rcases e with ⟨content, buttons⟩
    simp only [InspectPage.main, List.all_append, Bool.and_eq_true]
    refine ⟨⟨rfl, ?_⟩, rfl⟩
    exact all_map_true _ _ buttonLine_waitOk _
  · intro e
    rcases e with ⟨b1, b2, b3, b4, b5, b6, mc, ac, logs⟩
    simp only [QaTestAngle.main, seq, List.all_append, Bool.and_eq_true]
    repeat' apply And.intro
    all_goals
      first
      | rfl
      | (cases b1 <;> rfl)
      | (cases b2 <;> rfl)
      | (cases b3 <;> rfl)
      | (cases b4 <;> rfl)
      | (cases b5 <;> rfl)
      | (cases b6 <;> rfl)
      | (cases mc <;> rfl)
      | (cases ac <;> rfl)
  · intro e
    rcases e with ⟨box, n, content⟩
    cases box with
    | none => rfl
    | some b => rcases n with _ | n <;> rfl
  · intro e
    rcases e with ⟨box⟩
    cases box with
    | none => rfl
    | some b => rfl
  · intro e
    rcases e with ⟨n1, n2, ac, box⟩
    rcases ac with _ | ac <;> cases box <;> rfl

set_option maxHeartbeats 1600000 in
/-- C2: error handling is print-only.  The boolean success flag of the
`test_angle_measurement` function of `test_angle_measurement.py` — the one
case of a returned flag — is `false` exactly when the canvas bounding box is
missing or no angle button is found; on the canvas failure path the whole run
is the fixed prefix plus a printed message and `browser.close()`, on the
angle-button failure path the run ends with the printed message and
`browser.close()`, and `test_angle_qa.py`'s canvas failure path likewise only
prints an ERROR line and closes.  No script retries: every run of every script
launches exactly one browser and navigates exactly once. -/
theorem c2_error_flag :
    (∀ e : TestAngleMeasurement.Env,
      ((TestAngleMeasurement.test_angle_measurement e).2 = false ↔
        (e.canvasBox = none ∨ e.angleCount = 0))) ∧
    (∀ e : TestAngleMeasurement.Env, e.canvasBox = none →
      (TestAngleMeasurement.test_angle_measurement e).1 =
        [Action.launch false, Action.newPage, Action.goto "http://localhost:5173",
         Action.waitLoadState "networkidle", Action.print "✓ Page loaded",
         Action.locate "canvas", Action.print "✗ Canvas not found", Action.close]) ∧
    (∀ (e : TestAngleMeasurement.Env) (b : Box), e.canvasBox = some b → e.angleCount = 0 →
      lastTwo (TestAngleMeasurement.test_angle_measurement e).1 =
        [Action.print "✗ Angle tool button not found", Action.close]) ∧
    (∀ e : TestAngleQa.Env, e.canvasBox = none →
      TestAngleQa.test_angle_measurement e =
        [Action.launch false, Action.newPage, Action.setViewport 1400 900,
         Action.goto "http://localhost:5173", Action.waitLoadState "networkidle",
         Action.print "\n=== Test 1: Intersecting Segments - Arc follows mouse ===",
         Action.locate "canvas",
         Action.print "ERROR: Could not find canvas", Action.close]) ∧
    (∀ e : InspectPage.Env,
      (InspectPage.main e).countP isGoto = 1 ∧
      (InspectPage.main e).countP isLaunch = 1) ∧
    (∀ e : QaTestAngle.Env,
      (QaTestAngle.main e).countP isGoto = 1 ∧
      (QaTestAngle.main e).countP isLaunch = 1) ∧
    (∀ e : TestAngleMeasurement.Env,
      (TestAngleMeasurement.test_angle_measurement e).1.countP isGoto = 1 ∧
      (TestAngleMeasurement.test_angle_measurement e).1.countP isLaunch = 1) ∧
    (∀ e : TestAngleQa.Env,
      (TestAngleQa.test_angle_measurement e).countP isGoto = 1 ∧
      (TestAngleQa.test_angle_measurement e).countP isLaunch = 1) ∧
    (∀ e : TestAngleSimple.Env,
      (TestAngleSimple.test_angle e).countP isGoto = 1 ∧
      (TestAngleSimple.test_angle e).countP isLaunch = 1) := by
  refine ⟨?_, ?_, ?_, ?_, ?_, ?_, ?_, ?_, ?_⟩
  · intro e
    rcases e with ⟨box, n, content⟩
    cases box with
    | none => simp [TestAngleMeasurement.test_angle_measurement]
    | some b =>
      rcases n with _ | n <;> simp [TestAngleMeasurement.test_angle_measurement]
  · intro e h
    rcases e with ⟨box, n, content⟩
    simp only at h
    subst h
    rfl
  · intro e b hb hn
    rcases e with ⟨box, n, content⟩
    simp only at hb hn
    subst hb
    subst hn
    rfl
  · intro e h
    rcases e with ⟨box⟩
    simp only at h
    subst h
    rfl
  · intro e
    rcases e with ⟨content, buttons⟩
    constructor
    · simp only [InspectPage.main, List.countP_append,
        countP_map_zero _ _ buttonLine_not_goto]
      rfl
    · simp only [InspectPage.main, List.countP_append,
        countP_map_zero _ _ buttonLine_not_launch]
      rfl
  · intro e
    rcases e with ⟨b1, b2, b3, b4, b5, b6, mc, ac, logs⟩
    cases b1 <;> cases b2 <;> cases b3 <;> cases b4 <;> cases b5 <;> cases b6 <;>
      rcases mc with _ | mc <;> rcases ac with _ | ac <;> exact ⟨rfl, rfl⟩
  · intro e
    rcases e with ⟨box, n, content⟩
    cases box with
    | none => exact ⟨rfl, rfl⟩
    | some b => rcases n with _ | n <;> exact ⟨rfl, rfl⟩
  · intro e
    rcases e with ⟨box⟩
    cases box with
    | none => exact ⟨rfl, rfl⟩
    | some b => exact ⟨rfl, rfl⟩
  · intro e
    rcases e with ⟨n1, n2, ac, box⟩
    rcases ac with _ | ac <;> cases box <;> exact ⟨rfl, rfl⟩

/-- C2 witness: the flag characterization and failure-path shapes, evaluated
on a run with no canvas box, a run with a box but no angle button, and a
successful run. -/
theorem c2_witness :
    ((TestAngleMeasurement.test_angle_measurement ⟨none, 1, ""⟩).2 = false ∧
      (TestAngleMeasurement.test_angle_measurement ⟨none, 1, ""⟩).1 =
        [Action.launch false, Action.newPage, Action.goto "http://localhost:5173",
         Action.waitLoadState "networkidle", Action.print "✓ Page loaded",
         Action.locate "canvas", Action.print "✗ Canvas not found", Action.close]) ∧
    ((TestAngleMeasurement.test_angle_measurement ⟨some ⟨10, 20, 800, 600⟩, 0, ""⟩).2 = false ∧
      lastTwo (TestAngleMeasurement.test_angle_measurement ⟨some ⟨10, 20, 800, 600⟩, 0, ""⟩).1 =
        [Action.print "✗ Angle tool button not found", Action.close]) ∧
    (TestAngleMeasurement.test_angle_measurement ⟨some ⟨10, 20, 800, 600⟩, 1, ""⟩).2 = true ∧
    TestAngleQa.test_angle_measurement ⟨none⟩ =
      [Action.launch false, Action.newPage, Action.setViewport 1400 900,
       Action.goto "http://localhost:5173", Action.waitLoadState "networkidle",
       Action.print "\n=== Test 1: Intersecting Segments - Arc follows mouse ===",
       Action.locate "canvas",
       Action.print "ERROR: Could not find canvas", Action.close] :=
  ⟨⟨(c2_error_flag.1 ⟨none, 1, ""⟩).mpr (Or.inl rfl), c2_error_flag.2.1 ⟨none, 1, ""⟩ rfl⟩,
   ⟨(c2_error_flag.1 ⟨some ⟨10, 20, 800, 600⟩, 0, ""⟩).mpr (Or.inr rfl),
    c2_error_flag.2.2.1 ⟨some ⟨10, 20, 800, 600⟩, 0, ""⟩ ⟨10, 20, 800, 600⟩ rfl rfl⟩,
   rfl,
   c2_error_flag.2.2.2.1 ⟨none⟩ rfl⟩

/-- C1 counterexample: the claim says every one of the five scripts simulates
mouse pointer/click sequences and captures at least one screenshot, but
`inspect_page.py` contains no mouse event and no screenshot at all — here
evaluated on a page with empty content and no buttons, though its trace has no
mouse or screenshot action for any page. -/
theorem c1_counterexample :
    (InspectPage.main ⟨"", []⟩).any isMouseEvent = false ∧
    (InspectPage.main ⟨"", []⟩).any isScreenshot = false :=
  ⟨rfl, rfl⟩

/-- C1 amended: four of the five scripts follow the six-step shape — launch a
browser, navigate to their fixed local URL, locate UI elements, simulate mouse
pointer events, capture at least one screenshot, print diagnostic text, close
the browser — on runs where the canvas bounding box is available (and, for
`test_angle_measurement.py`, an angle button is found), except that
`test_angle_qa.py` ends in an uncaught TypeError from its argument-less
`page.mouse.click()` instead of reaching `browser.close()`; `inspect_page.py`
launches, navigates, locates, prints and closes, but simulates no mouse events
and captures no screenshots. -/
theorem c1_amended :
    (∀ (e : QaTestAngle.Env) (b : Box), e.box1 = some b →
      sixStepShape "http://localhost:5176" (QaTestAngle.main e) = true) ∧
    (∀ (e : TestAngleMeasurement.Env) (b : Box) (n : Nat),
      e.canvasBox = some b → e.angleCount = n + 1 →
      sixStepShape "http://localhost:5173"
        (TestAngleMeasurement.test_angle_measurement e).1 = true) ∧
    (∀ (e : TestAngleSimple.Env) (b : Box), e.canvasBox = some b →
      sixStepShape "http://localhost:5173" (TestAngleSimple.test_angle e) = true) ∧
    (∀ (e : TestAngleQa.Env) (b : Box), e.canvasBox = some b →
      (openNavLocPrint "http://localhost:5173" (TestAngleQa.test_angle_measurement e) &&
        (TestAngleQa.test_angle_measurement e).any isMouseEvent &&
        (TestAngleQa.test_angle_measurement e).any isScreenshot) = true ∧
      (TestAngleQa.test_angle_measurement e).getLast? =
        some (Action.raiseTypeError
          "Mouse.click() missing 2 required positional arguments: x and y")) ∧
    (∀ e : InspectPage.Env,
      (openNavLocPrint "http://localhost:5173" (InspectPage.main e) &&
        lastClose (InspectPage.main e)) = true ∧
      (InspectPage.main e).any isMouseEvent = false ∧
      (InspectPage.main e).any isScreenshot = false) := by
  refine ⟨?_, ?_, ?_, ?_, ?_⟩
  · intro e b h
    rcases e with ⟨b1, b2, b3, b4, b5, b6, mc, ac, logs⟩
    simp only at h
    subst h
    simp only [sixStepShape, openNavLocPrint, Bool.and_eq_true]
    repeat' apply And.intro
    all_goals
      first
      | (simp only [QaTestAngle.main]; exact lastClose_snoc _)
      | rfl
  · intro e b n hb hn
    rcases e with ⟨box, m, content⟩
    simp only at hb hn
    subst hb
    subst hn
    simp only [sixStepShape, openNavLocPrint, Bool.and_eq_true]
    repeat' apply And.intro
    all_goals
      first
      | (simp only [TestAngleMeasurement.test_angle_measurement]; exact lastClose_snoc _)
      | rfl
  · intro e b h
    rcases e with ⟨n1, n2, ac, box⟩
    simp only at h
    subst h
    simp only [sixStepShape, openNavLocPrint, Bool.and_eq_true]
    repeat' apply And.intro
    all_goals
      first
      | (simp only [TestAngleSimple.test_angle]; exact lastClose_snoc _)
      | rfl
      | (rcases ac with _ | ac <;> rfl)
  · intro e b h
    rcases e with ⟨box⟩
    simp only at h
    subst h
    exact ⟨rfl, rfl⟩
  · intro e
    rcases e with ⟨content, buttons⟩
    refine ⟨?_, ?_, ?_⟩
    · simp only [Bool.and_eq_true]
      refine ⟨rfl, ?_⟩
      simp only [InspectPage.main]
      exact lastClose_snoc _
    · simp only [InspectPage.main, List.any_append, Bool.or_eq_false_iff]
      exact ⟨⟨rfl, any_map_false _ _ buttonLine_not_mouse _⟩, rfl⟩
    · simp only [InspectPage.main, List.any_append, Bool.or_eq_false_iff]
      exact ⟨⟨rfl, any_map_false _ _ buttonLine_not_shot _⟩, rfl⟩

/-- C1 witness: the amended claim, instantiated on concrete runs where each
script obtains the canvas bounding box 10,20,800,600 and one angle button. -/
theorem c1_witness :
    sixStepShape "http://localhost:5176"
      (QaTestAngle.main ⟨some ⟨10, 20, 800, 600⟩, none, none, none, none, none, 0, 0, ""⟩) =
      true ∧
    sixStepShape "http://localhost:5173"
      (TestAngleMeasurement.test_angle_measurement ⟨some ⟨10, 20, 800, 600⟩, 1, ""⟩).1 =
      true ∧
    sixStepShape "http://localhost:5173"
      (TestAngleSimple.test_angle ⟨17, 20, 1, some ⟨10, 20, 800, 600⟩⟩) = true ∧
    (TestAngleQa.test_angle_measurement ⟨some ⟨10, 20, 800, 600⟩⟩).getLast? =
      some (Action.raiseTypeError
        "Mouse.click() missing 2 required positional arguments: x and y") ∧
    (InspectPage.main ⟨"<html></html>", [some ("Digital", "None")]⟩).any isMouseEvent =
      false :=
  ⟨c1_amended.1 _ ⟨10, 20, 800, 600⟩ rfl,
   c1_amended.2.1 _ ⟨10, 20, 800, 600⟩ 0 rfl rfl,
   c1_amended.2.2.1 _ ⟨10, 20, 800, 600⟩ rfl,
   (c1_amended.2.2.2.1 _ ⟨10, 20, 800, 600⟩ rfl).2,
   (c1_amended.2.2.2.2 _).2.1⟩

/-- C5 counterexample: the claim says every script navigates to the same
local development URL and every button locator filters by a recognized text or
an angle aria-label, but `qa_test_angle.py` navigates to
http://localhost:5176 while `inspect_page.py` navigates (only) to
http://localhost:5173, and `inspect_page.py` uses the bare `button` locator,
which filters by nothing. -/
theorem c5_counterexample :
    Action.goto "http://localhost:5176" ∈
      QaTestAngle.main ⟨none, none, none, none, none, none, 0, 0, ""⟩ ∧
    Action.goto "http://localhost:5176" ∉ InspectPage.main ⟨"", []⟩ ∧
    Action.locate "button" ∈ InspectPage.main ⟨"", []⟩ ∧
    filteredButtonSelectors.contains "button" = false := by
  refine ⟨?_, ?_, ?_, ?_⟩ <;> decide

/-- C5 amended: each script navigates to exactly one fixed localhost URL —
http://localhost:5176 for `qa_test_angle.py`, http://localhost:5173 for the
other four — and every button locator either filters by one of the
recognizable texts Digital, Line, Measure, Angle (in the capitalization the
script uses) or by an aria-label containing `angle`, or is the bare `button`
locator used to enumerate all buttons. -/
theorem c5_amended :
    (∀ e : InspectPage.Env,
      ((InspectPage.main e).any (· == Action.goto "http://localhost:5173") &&
        (InspectPage.main e).all (gotoOnly "http://localhost:5173") &&
        (InspectPage.main e).all buttonLocatorOk) = true) ∧
    (∀ e : QaTestAngle.Env,
      ((QaTestAngle.main e).any (· == Action.goto "http://localhost:5176") &&
        (QaTestAngle.main e).all (gotoOnly "http://localhost:5176") &&
        (QaTestAngle.main e).all buttonLocatorOk) = true) ∧
    (∀ e : TestAngleMeasurement.Env,
      ((TestAngleMeasurement.test_angle_measurement e).1.any
          (· == Action.goto "http://localhost:5173") &&
        (TestAngleMeasurement.test_angle_measurement e).1.all
          (gotoOnly "http://localhost:5173") &&
        (TestAngleMeasurement.test_angle_measurement e).1.all buttonLocatorOk) = true) ∧
    (∀ e : TestAngleQa.Env,
      ((TestAngleQa.test_angle_measurement e).any
          (· == Action.goto "http://localhost:5173") &&
        (TestAngleQa.test_angle_measurement e).all (gotoOnly "http://localhost:5173") &&
        (TestAngleQa.test_angle_measurement e).all buttonLocatorOk) = true) ∧
    (∀ e : TestAngleSimple.Env,
      ((TestAngleSimple.test_angle e).any (· == Action.goto "http://localhost:5173") &&
        (TestAngleSimple.test_angle e).all (gotoOnly "http://localhost:5173") &&
        (TestAngleSimple.test_angle e).all buttonLocatorOk) = true) := by
  refine ⟨?_, ?_, ?_, ?_, ?_⟩
  · intro e
    rcases e with ⟨content, buttons⟩
    simp only [Bool.and_eq_true]
    refine ⟨⟨rfl, ?_⟩, ?_⟩
    · simp only [InspectPage.main, List.all_append, Bool.and_eq_true]
      exact ⟨⟨rfl, all_map_true _ _ (buttonLine_gotoOnly _) _⟩, rfl⟩
    · simp only [InspectPage.main, List.all_append, Bool.and_eq_true]
      exact ⟨⟨rfl, all_map_true _ _ buttonLine_locatorOk _⟩, rfl⟩
  · intro e
    rcases e with ⟨b1, b2, b3, b4, b5, b6, mc, ac, logs⟩
    simp only [Bool.and_eq_true]
    refine ⟨⟨rfl, ?_⟩, ?_⟩ <;>
    · simp only [QaTestAngle.main, seq, List.all_append, Bool.and_eq_true]
      repeat' apply And.intro
      all_goals
        first
        | rfl
        | (cases b1 <;> rfl)
        | (cases b2 <;> rfl)
        | (cases b3 <;> rfl)
        | (cases b4 <;> rfl)
        | (cases b5 <;> rfl)
        | (cases b6 <;> rfl)
        | (cases mc <;> rfl)
        | (cases ac <;> rfl)
  · intro e
    rcases e with ⟨box, n, content⟩
    simp only [Bool.and_eq_true]
    refine ⟨⟨rfl, ?_⟩, ?_⟩ <;>
      (cases box with
       | none => rfl
       | some b => rcases n with _ | n <;> rfl)
  · intro e
    rcases e with ⟨box⟩
    simp only [Bool.and_eq_true]
    refine ⟨⟨rfl, ?_⟩, ?_⟩ <;> cases box <;> rfl
  · intro e
    rcases e with ⟨n1, n2, ac, box⟩
    simp only [Bool.and_eq_true]
    refine ⟨⟨rfl, ?_⟩, ?_⟩ <;> rcases ac with _ | ac <;> cases box <;> rfl

/-- C7: on runs of `test_angle_measurement.py` that reach the content check
(canvas box present, an angle button found), the script prints the
angle-displayed observation exactly when the lowercased page content contains
the substring `angle:` or the content contains `°` — the condition
`angleDisplayedCheck`, taken verbatim from line 108 — and prints the
not-clearly-visible warning exactly otherwise. -/
theorem c7_display_substring : ∀ (e : TestAngleMeasurement.Env) (b : Box) (n : Nat),
    e.canvasBox = some b → e.angleCount = n + 1 →
    ((TestAngleMeasurement.test_angle_measurement e).1.any
        (· == Action.print "✓ Angle measurement appears to be displayed") =
      TestAngleMeasurement.angleDisplayedCheck e.content ∧
     (TestAngleMeasurement.test_angle_measurement e).1.any
        (· == Action.print "⚠ Angle measurement text not clearly visible in content") =
      !TestAngleMeasurement.angleDisplayedCheck e.content) := by
  intro e b n hb hn
  rcases e with ⟨box, m, content⟩
  simp only at hb hn
  subst hb
  subst hn
  cases hc : TestAngleMeasurement.angleDisplayedCheck content <;>
    simp only [TestAngleMeasurement.test_angle_measurement, hc] <;>
    exact ⟨rfl, rfl⟩

/-- C7 witness: a run whose page content contains a degree sign reports the
angle as displayed; a run with empty page content reports the warning. -/
theorem c7_witness :
    (TestAngleMeasurement.test_angle_measurement ⟨some ⟨10, 20, 800, 600⟩, 1, "Angle: 45°"⟩).1.any
        (· == Action.print "✓ Angle measurement appears to be displayed") = true ∧
    (TestAngleMeasurement.test_angle_measurement ⟨some ⟨10, 20, 800, 600⟩, 1, ""⟩).1.any
        (· == Action.print "⚠ Angle measurement text not clearly visible in content") = true :=
  ⟨((c7_display_substring ⟨some ⟨10, 20, 800, 600⟩, 1, "Angle: 45°"⟩ ⟨10, 20, 800, 600⟩ 0
      rfl rfl).1).trans (by decide),
   ((c7_display_substring ⟨some ⟨10, 20, 800, 600⟩, 1, ""⟩ ⟨10, 20, 800, 600⟩ 0
      rfl rfl).2).trans (by decide)⟩

/-- C8: `inspect_page.py` truncates its output on every page: the content
print (the seventh action) prints a prefix of the page content of at most
2000 characters, and the number of prints in the whole run is three fixed
headers plus one print per described button, the described buttons being the
first `min 20 n` of the page's `n` buttons. -/
theorem c8_truncation : ∀ e : InspectPage.Env,
    (∃ s, (InspectPage.main e)[6]? = some (Action.print s) ∧
      s.data <+: e.content.data ∧ s.length ≤ 2000) ∧
    (InspectPage.main e).countP isPrint = 3 + min 20 e.buttons.length := by
  intro e
  rcases e with ⟨content, buttons⟩
  constructor
  · refine ⟨String.mk (content.data.take 2000), rfl, List.take_prefix _ _, ?_⟩
    show (content.data.take 2000).length ≤ 2000
    simp [List.length_take]
  · simp only [InspectPage.main, List.countP_append,
      countP_map_length _ _ buttonLine_isPrint, List.enum_length, List.length_take]
    rfl

/-- C8 witness: on a page with three buttons the run prints six lines
(three headers plus one line per button), and the content print takes at most
2000 characters. -/
theorem c8_witness :
    (InspectPage.main ⟨"<html></html>",
        [some ("Digital", "None"), some ("Line", "None"), none]⟩).countP isPrint =
      3 + min 20 3 :=
  (c8_truncation ⟨"<html></html>",
    [some ("Digital", "None"), some ("Line", "None"), none]⟩).2

/-- C10: in `test_angle_qa.py` the angle label classification of lines
134-138 reports an angle value as acute exactly when the parsed value is at
most 90; in particular the boundary value 90 itself is reported as acute
rather than as a right angle. -/
theorem c10_acute_boundary :
    (∀ v : ℚ, TestAngleQa.acuteReport v = "✓ Acute angle: " ++ toString v ++ "°" ↔ v ≤ 90) ∧
    TestAngleQa.acuteReport 90 = "✓ Acute angle: " ++ toString (90 : ℚ) ++ "°" := by
  constructor
  · intro v
    by_cases hv : v ≤ 90
    · exact iff_of_true (by rw [TestAngleQa.acuteReport, if_pos hv]) hv
    · refine iff_of_false ?_ hv
      rw [TestAngleQa.acuteReport, if_neg hv]
      exact ne_of_beq_false rfl
  · rfl

/-- C10 witness: the classification applied at the concrete boundary value
90 yields the acute report. -/
theorem c10_witness :
    (90 : ℚ) ≤ 90 ∧ TestAngleQa.acuteReport 90 = "✓ Acute angle: " ++ toString (90 : ℚ) ++ "°" :=
  ⟨by norm_num, (c10_acute_boundary.1 90).mpr (by norm_num)⟩

/-- C4 (code bug): on a run of `test_angle_qa.py` where the canvas bounding
box is 0,0,800,600, the flow prints its Test 1 (intersecting segments) and
Test 2 (selection) headers, but no printed message ever mentions a parallel
or non-intersecting case and no Test 3 section is reached; no mouse click on
a line is ever issued, and the run's final event is the TypeError raised by
the argument-less `page.mouse.click()` on line 123 — so the docstring's
non-intersecting segments test, parallel lines test, angle verification, and
chaining test never execute. -/
theorem c4_missing_cases :
    (Action.print "\n=== Test 1: Intersecting Segments - Arc follows mouse ===" ∈
      TestAngleQa.test_angle_measurement ⟨some ⟨0, 0, 800, 600⟩⟩) ∧
    (Action.print "\n=== Test 2: Arc selection by clicking ===" ∈
      TestAngleQa.test_angle_measurement ⟨some ⟨0, 0, 800, 600⟩⟩) ∧
    ((printedMsgs (TestAngleQa.test_angle_measurement ⟨some ⟨0, 0, 800, 600⟩⟩)).any
      (fun s => containsSub "arallel".data s.data) = false) ∧
    ((printedMsgs (TestAngleQa.test_angle_measurement ⟨some ⟨0, 0, 800, 600⟩⟩)).any
      (fun s => containsSub "on-intersecting".data s.data) = false) ∧
    ((printedMsgs (TestAngleQa.test_angle_measurement ⟨some ⟨0, 0, 800, 600⟩⟩)).any
      (fun s => containsSub "Test 3".data s.data) = false) ∧
    ((TestAngleQa.test_angle_measurement ⟨some ⟨0, 0, 800, 600⟩⟩).countP isMouseClick = 0) ∧
    ((TestAngleQa.test_angle_measurement ⟨some ⟨0, 0, 800, 600⟩⟩).getLast? =
      some (Action.raiseTypeError
        "Mouse.click() missing 2 required positional arguments: x and y")) := by
  refine ⟨?_, ?_, ?_, ?_, ?_, ?_, ?_⟩ <;> decide

/-- C6: every coordinate passed to a mouse event is derived from a canvas
bounding box the run obtained: it equals the box origin plus one of the
scripts' literal offsets, or the box center (origin plus half the extent)
plus such an offset, on each axis.  Since the offsets come from the fixed
literal list, no pointer coordinate is a constant independent of the box. -/
theorem c6_box_derived :
    (∀ (e : QaTestAngle.Env), ∀ a ∈ QaTestAngle.main e,
      boxDerivedFromAny [e.box1, e.box2, e.box3, e.box4, e.box5, e.box6] a) ∧
    (∀ (e : TestAngleMeasurement.Env) (b : Box), e.canvasBox = some b →
      ∀ a ∈ (TestAngleMeasurement.test_angle_measurement e).1, boxDerived b a) ∧
    (∀ (e : TestAngleQa.Env) (b : Box), e.canvasBox = some b →
      ∀ a ∈ TestAngleQa.test_angle_measurement e, boxDerived b a) ∧
    (∀ (e : TestAngleSimple.Env) (b : Box), e.canvasBox = some b →
      ∀ a ∈ TestAngleSimple.test_angle e, boxDerived b a) := by
  refine ⟨?_, ?_, ?_, ?_⟩
  · intro e a ha
    rcases e with ⟨b1, b2, b3, b4, b5, b6, mc, ac, logs⟩
    simp only [QaTestAngle.main, seq, List.append_nil, List.mem_append] at ha
    rcases ha with (ha | ha) | ha
    · exact fromAny_of_no_mouse ha rfl
    · rcases ha with ha | ha
      · cases b1 with
        | none => exact absurd ha (List.not_mem_nil a)
        | some bb =>
          simp only [List.mem_cons, List.not_mem_nil, or_false] at ha
          rcases ha with rfl | rfl | rfl | rfl | rfl | rfl | rfl
          · exact fromAny_move _ (by simp)
              (axis_orig _ _ 100 (by decide)) (axis_orig _ _ 200 (by decide))
          · exact fromAny_of_none rfl
          · exact fromAny_move _ (by simp)
              (axis_orig _ _ 300 (by decide)) (axis_orig _ _ 200 (by decide))
          · exact fromAny_of_none rfl
          · exact fromAny_of_none rfl
          · exact fromAny_click _ (by simp)
              (axis_orig _ _ 100 (by decide)) (axis_orig _ _ 200 (by decide))
          · exact fromAny_of_none rfl
      rcases ha with ha | ha
      · exact fromAny_of_no_mouse ha rfl
      rcases ha with ha | ha
      · cases b2 with
        | none => exact absurd ha (List.not_mem_nil a)
        | some bb =>
          simp only [List.mem_cons, List.not_mem_nil, or_false] at ha
          rcases ha with rfl | rfl | rfl | rfl | rfl | rfl | rfl
          · exact fromAny_move _ (by simp)
              (axis_orig _ _ 200 (by decide)) (axis_orig _ _ 100 (by decide))
          · exact fromAny_of_none rfl
          · exact fromAny_move _ (by simp)
              (axis_orig _ _ 200 (by decide)) (axis_orig _ _ 300 (by decide))
          · exact fromAny_of_none rfl
          · exact fromAny_of_none rfl
          · exact fromAny_click _ (by simp)
              (axis_orig _ _ 200 (by decide)) (axis_orig _ _ 100 (by decide))
          · exact fromAny_of_none rfl
      rcases ha with ha | ha
      · exact fromAny_of_no_mouse ha rfl
      rcases ha with ha | ha
      · rcases mc with _ | mc
        · exact absurd ha (List.not_mem_nil a)
        · exact fromAny_of_no_mouse ha rfl
      rcases ha with ha | ha
      · exact fromAny_of_no_mouse ha rfl
      rcases ha with ha | ha
      · rcases ac with _ | ac
        · exact absurd ha (List.not_mem_nil a)
        · exact fromAny_of_no_mouse ha rfl
      rcases ha with ha | ha
      · exact fromAny_of_no_mouse ha rfl
      rcases ha with ha | ha
      · cases b3 with
        | none => exact absurd ha (List.not_mem_nil a)
        | some bb =>
          simp only [List.mem_cons, List.not_mem_nil, or_false] at ha
          rcases ha with rfl | rfl
          · exact fromAny_click _ (by simp)
              (axis_orig _ _ 200 (by decide)) (axis_orig _ _ 200 (by decide))
          · exact fromAny_of_none rfl
      rcases ha with ha | ha
      · exact fromAny_of_no_mouse ha rfl
      rcases ha with ha | ha
      · cases b4 with
        | none => exact absurd ha (List.not_mem_nil a)
        | some bb =>
          simp only [List.mem_cons, List.not_mem_nil, or_false] at ha
          rcases ha with rfl | rfl
          · exact fromAny_click _ (by simp)
              (axis_orig _ _ 200 (by decide)) (axis_orig _ _ 200 (by decide))
          · exact fromAny_of_none rfl
      rcases ha with ha | ha
      · exact fromAny_of_no_mouse ha rfl
      rcases ha with ha | ha
      · cases b5 with
        | none => exact absurd ha (List.not_mem_nil a)
        | some bb =>
          simp only [List.mem_cons, List.not_mem_nil, or_false] at ha
          rcases ha with rfl | rfl
          · exact fromAny_click _ (by simp)
              (axis_orig _ _ 250 (by decide)) (axis_orig _ _ 250 (by decide))
          · exact fromAny_of_none rfl
      rcases ha with ha | ha
      · exact fromAny_of_no_mouse ha rfl
      rcases ha with ha | ha
      · cases b6 with
        | none => exact absurd ha (List.not_mem_nil a)
        | some bb =>
          simp only [List.mem_cons, List.not_mem_nil, or_false] at ha
          rcases ha with rfl | rfl
          · exact fromAny_click _ (by simp)
              (axis_orig _ _ 200 (by decide)) (axis_orig _ _ 200 (by decide))
          · exact fromAny_of_none rfl
      exact fromAny_of_no_mouse ha rfl
    · exact fromAny_of_no_mouse ha rfl
  · intro e b hb a ha
    rcases e with ⟨box, n, content⟩
    simp only at hb
    subst hb
    simp only [TestAngleMeasurement.test_angle_measurement, List.mem_append] at ha
    rcases ha with (ha | ha) | ha
    · exact boxDerived_of_no_mouse ha rfl
    · rcases ha with ha | ha
      · simp only [List.mem_cons, List.not_mem_nil, or_false] at ha
        rcases ha with rfl | rfl | rfl | rfl | rfl | rfl | rfl | rfl | rfl | rfl | rfl |
          rfl | rfl | rfl | rfl | rfl | rfl | rfl | rfl | rfl | rfl
        · exact boxDerived_of_none rfl
        · exact boxDerived_of_none rfl
        · exact boxDerived_of_none rfl
        · exact boxDerived_of_none rfl
        · exact boxDerived_of_none rfl
        · exact boxDerived_click _
            (axis_cent_sub _ _ 100 (by decide)) (axis_cent_zero _ _)
        · exact boxDerived_of_none rfl
        · exact boxDerived_click _
            (axis_cent _ _ 100 (by decide)) (axis_cent_zero _ _)
        · exact boxDerived_of_none rfl
        · exact boxDerived_click _
            (axis_cent_sub _ _ 100 (by decide)) (axis_cent_zero _ _)
        · exact boxDerived_of_none rfl
        · exact boxDerived_click _
            (axis_cent_zero _ _) (axis_cent_sub _ _ 100 (by decide))
        · exact boxDerived_of_none rfl
        · exact boxDerived_click _
            (axis_cent_zero _ _) (axis_cent _ _ 100 (by decide))
        · exact boxDerived_of_none rfl
        · exact boxDerived_click _
            (axis_cent_zero _ _) (axis_cent_sub _ _ 100 (by decide))
        · exact boxDerived_of_none rfl
        · exact boxDerived_of_none rfl
        · exact boxDerived_of_none rfl
        · exact boxDerived_of_none rfl
        · exact boxDerived_of_none rfl
      · rcases n with _ | n
        · exact boxDerived_of_no_mouse ha rfl
        · simp only [List.mem_cons, List.not_mem_nil, or_false] at ha
          rcases ha with rfl | rfl | rfl | rfl | rfl | rfl | rfl | rfl | rfl | rfl |
            rfl | rfl | rfl
          · exact boxDerived_of_none rfl
          · exact boxDerived_of_none rfl
          · exact boxDerived_of_none rfl
          · exact boxDerived_of_none rfl
          · exact boxDerived_click _
              (axis_cent_sub _ _ 50 (by decide)) (axis_cent_zero _ _)
          · exact boxDerived_of_none rfl
          · exact boxDerived_of_none rfl
          · exact boxDerived_click _
              (axis_cent_zero _ _) (axis_cent_sub _ _ 50 (by decide))
          · exact boxDerived_of_none rfl
          · exact boxDerived_of_none rfl
          · exact boxDerived_of_none rfl
          · exact boxDerived_of_none rfl
          · exact boxDerived_of_none rfl
    · exact boxDerived_of_no_mouse ha rfl
  · intro e b hb a ha
    rcases e with ⟨box⟩
    simp only at hb
    subst hb
    simp only [TestAngleQa.test_angle_measurement, seq, List.append_nil,
      List.mem_append] at ha
    rcases ha with ha | ha
    · exact boxDerived_of_no_mouse ha rfl
    rcases ha with ha | ha
    · exact boxDerived_of_no_mouse ha rfl
    rcases ha with ha | ha
    · simp only [TestAngleQa.draw_line, List.mem_cons, List.not_mem_nil, or_false] at ha
      rcases ha with rfl | rfl | rfl | rfl | rfl | rfl | rfl
      · exact boxDerived_move _
          (axis_cent_sub _ _ 100 (by decide)) (axis_cent_sub _ _ 150 (by decide))
      · exact boxDerived_of_none rfl
      · exact boxDerived_of_none rfl
      · exact boxDerived_move _
          (axis_cent_sub _ _ 100 (by decide)) (axis_cent _ _ 150 (by decide))
      · exact boxDerived_of_none rfl
      · exact boxDerived_of_none rfl
      · exact boxDerived_of_none rfl
    rcases ha with ha | ha
    · exact boxDerived_of_no_mouse ha rfl
    rcases ha with ha | ha
    · exact boxDerived_of_no_mouse ha rfl
    rcases ha with ha | ha
    · simp only [TestAngleQa.draw_line, List.mem_cons, List.not_mem_nil, or_false] at ha
      rcases ha with rfl | rfl | rfl | rfl | rfl | rfl | rfl
      · exact boxDerived_move _
          (axis_cent_sub _ _ 200 (by decide)) (axis_cent_zero _ _)
      · exact boxDerived_of_none rfl
      · exact boxDerived_of_none rfl
      · exact boxDerived_move _
          (axis_cent _ _ 200 (by decide)) (axis_cent_zero _ _)
      · exact boxDerived_of_none rfl
      · exact boxDerived_of_none rfl
      · exact boxDerived_of_none rfl
    rcases ha with ha | ha
    · exact boxDerived_of_no_mouse ha rfl
    rcases ha with ha | ha
    · simp only [List.mem_cons, List.not_mem_nil, or_false] at ha
      rcases ha with rfl | rfl | rfl | rfl
      · exact boxDerived_of_none rfl
      · exact boxDerived_of_none rfl
      · exact boxDerived_move _
          (axis_cent_sub _ _ 150 (by decide)) (axis_cent_zero _ _)
      · exact boxDerived_of_none rfl
    rcases ha with ha | ha
    · exact boxDerived_of_no_mouse ha rfl
    rcases ha with ha | ha
    · simp only [List.mem_cons, List.not_mem_nil, or_false] at ha
      rcases ha with rfl | rfl | rfl
      · exact boxDerived_of_none rfl
      · exact boxDerived_move _
          (axis_cent _ _ 150 (by decide)) (axis_cent_zero _ _)
      · exact boxDerived_of_none rfl
    rcases ha with ha | ha
    · exact boxDerived_of_no_mouse ha rfl
    rcases ha with ha | ha
    · simp only [List.mem_cons, List.not_mem_nil, or_false] at ha
      rcases ha with rfl | rfl | rfl
      · exact boxDerived_of_none rfl
      · exact boxDerived_move _
          (axis_cent_sub _ _ 100 (by decide)) (axis_cent_sub _ _ 100 (by decide))
      · exact boxDerived_of_none rfl
    rcases ha with ha | ha
    · exact boxDerived_of_no_mouse ha rfl
    rcases ha with ha | ha
    · simp only [List.mem_cons, List.not_mem_nil, or_false] at ha
      rcases ha with rfl | rfl | rfl
      · exact boxDerived_of_none rfl
      · exact boxDerived_move _
          (axis_cent_sub _ _ 100 (by decide)) (axis_cent _ _ 100 (by decide))
      · exact boxDerived_of_none rfl
    rcases ha with ha | ha
    · exact boxDerived_of_no_mouse ha rfl
    · simp only [List.mem_cons, List.not_mem_nil, or_false] at ha
      rcases ha with rfl | rfl | rfl | rfl | rfl
      · exact boxDerived_of_none rfl
      · exact boxDerived_of_none rfl
      · exact boxDerived_move _
          (axis_cent_sub _ _ 150 (by decide)) (axis_cent_zero _ _)
      · exact boxDerived_of_none rfl
      · exact boxDerived_of_none rfl
  · intro e b hb a ha
    rcases e with ⟨n1, n2, ac, box⟩
    simp only at hb
    subst hb
    simp only [TestAngleSimple.test_angle, seq, List.append_nil, List.mem_append] at ha
    rcases ha with (ha | ha) | ha
    · exact boxDerived_of_no_mouse ha rfl
    · rcases ha with ha | ha
      · rcases ac with _ | ac
        · exact absurd ha (List.not_mem_nil a)
        · exact boxDerived_of_no_mouse ha rfl
      rcases ha with ha | ha
      · exact boxDerived_of_no_mouse ha rfl
      rcases ha with ha | ha
      · simp only [List.mem_cons, List.not_mem_nil, or_false] at ha
        rcases ha with rfl | rfl | rfl | rfl | rfl | rfl | rfl | rfl | rfl | rfl | rfl |
          rfl | rfl | rfl | rfl | rfl | rfl | rfl | rfl | rfl | rfl | rfl
        · exact boxDerived_of_none rfl
        · exact boxDerived_of_none rfl
        · exact boxDerived_move _
            (axis_cent_sub _ _ 100 (by decide)) (axis_cent_sub _ _ 150 (by decide))
        · exact boxDerived_of_none rfl
        · exact boxDerived_move _
            (axis_cent_sub _ _ 100 (by decide)) (axis_cent _ _ 150 (by decide))
        · exact boxDerived_of_none rfl
        · exact boxDerived_of_none rfl
        · exact boxDerived_of_none rfl
        · exact boxDerived_of_none rfl
        · exact boxDerived_move _
            (axis_cent_sub _ _ 200 (by decide)) (axis_cent_zero _ _)
        · exact boxDerived_of_none rfl
        · exact boxDerived_move _
            (axis_cent _ _ 200 (by decide)) (axis_cent_zero _ _)
        · exact boxDerived_of_none rfl
        · exact boxDerived_of_none rfl
        · exact boxDerived_of_none rfl
        · exact boxDerived_of_none rfl
        · exact boxDerived_move _
            (axis_cent_sub _ _ 150 (by decide)) (axis_cent_zero _ _)
        · exact boxDerived_of_none rfl
        · exact boxDerived_of_none rfl
        · exact boxDerived_move _
            (axis_cent _ _ 150 (by decide)) (axis_cent_zero _ _)
        · exact boxDerived_of_none rfl
        · exact boxDerived_of_none rfl
      · exact boxDerived_of_no_mouse ha rfl
    · exact boxDerived_of_no_mouse ha rfl

/-- C6 witness: the first mouse move of a `qa_test_angle.py` run whose first
bounding-box query returns the box 0,20,800,600 lands at 100,220, which is
that box's origin plus the literal offsets 100 and 200. -/
theorem c6_witness :
    ∃ b, some b ∈ [some (⟨0, 20, 800, 600⟩ : Box), none, none, none, none, none] ∧
      axisDerived b.x b.width ((⟨0, 20, 800, 600⟩ : Box).x + 100) ∧
      axisDerived b.y b.height ((⟨0, 20, 800, 600⟩ : Box).y + 200) :=
  c6_box_derived.1 ⟨some ⟨0, 20, 800, 600⟩, none, none, none, none, none, 0, 0, ""⟩
    (Action.mouseMove ((⟨0, 20, 800, 600⟩ : Box).x + 100)
      ((⟨0, 20, 800, 600⟩ : Box).y + 200) 1)
    (by simp [QaTestAngle.main, seq]) _ _ rfl

end WebStroker
